import Mathlib

/-!
Shallow embedding of `main.py` from thgossler/pocket-bookmark-export.

The core of the program is `create_pocket_folder(bookmarks_json, entries)`,
which merges a list of Pocket items into a Chrome/Edge-style bookmark
document, plus the surrounding load/backup/save pipeline in `main`.

Python dictionaries with optional keys are modelled with `Option String`
fields; Python truthiness on strings (`None` and `""` are falsy) is
modelled by `truthy`; the wall clock (`time.time()`) is an explicit
parameter `clk : Nat → Nat` giving the integer microsecond reading at the
n-th call of `now_chrome_ts` within the run.
-/

namespace PocketExport

/-- Constant `EPOCH_OFFSET` from main.py: microseconds between 1601-01-01 and 1970-01-01. -/
def EPOCH_OFFSET : Nat := 11644473600000000

/-- Function `now_chrome_ts()`: `str(int(time.time() * 1_000_000) + EPOCH_OFFSET)`.
`clk n` is `int(time.time() * 1_000_000)` at the n-th call in the run. -/
def now_chrome_ts (clk : Nat → Nat) (n : Nat) : String :=
  toString (clk n + EPOCH_OFFSET)

/-- Python `str(int(s))` for a string holding a decimal numeral. -/
def pyStrInt (s : String) : String :=
  toString (s.toNat?.getD 0)

/-- Python truthiness of an optional string: `None` and `""` are falsy. -/
def truthy : Option String → Bool
  | none => false
  | some s => !s.isEmpty

/-- Python `a or b` on optional strings: `a` if truthy, else `b`. -/
def pyOr (a b : Option String) : Option String :=
  if truthy a then a else b

/-- A Pocket item record as returned by the API (`item.get(...)` fields). -/
structure Item where
  item_id : Option String := none
  resolved_title : Option String := none
  given_title : Option String := none
  resolved_url : Option String := none
  given_url : Option String := none
deriving Repr, DecidableEq

/-- Line 190: `item.get("resolved_title") or item.get("given_title") or item.get("item_id")`. -/
def resolveTitle (it : Item) : Option String :=
  pyOr (pyOr it.resolved_title it.given_title) it.item_id

/-- Line 191: `item.get("resolved_url") or item.get("given_url")`. -/
def resolveUrl (it : Item) : Option String :=
  pyOr it.resolved_url it.given_url

/-- A node of the bookmark document: a JSON object with the optional keys
the program reads or writes (`type`, `name`, `url`, `date_added`, `id`,
`children`). Fields the program never inspects on a given node simply
stay in place. -/
inductive Node where
  | mk (type name url date_added id : Option String)
       (children : Option (List Node)) : Node
deriving Repr

def Node.type : Node → Option String
  | .mk t _ _ _ _ _ => t

def Node.name : Node → Option String
  | .mk _ n _ _ _ _ => n

def Node.url : Node → Option String
  | .mk _ _ u _ _ _ => u

def Node.date_added : Node → Option String
  | .mk _ _ _ d _ _ => d

def Node.id : Node → Option String
  | .mk _ _ _ _ i _ => i

def Node.children : Node → Option (List Node)
  | .mk _ _ _ _ _ c => c

/-- The filter predicate of line 179:
`child.get("type") == "folder" and child.get("name") == "Pocket-Export"`. -/
def isPocketExport (child : Node) : Bool :=
  child.type == some "folder" && child.name == some "Pocket-Export"

/-- A bookmark document: the `"roots"` key (absent key modelled as `none`)
holds a dictionary of named roots, modelled as an association list. -/
structure Document where
  roots : Option (List (String × Node))
deriving Repr

/-- Dictionary lookup `rs[key]` in the roots dictionary (first match). -/
def lookupRoot : List (String × Node) → String → Option Node
  | [], _ => none
  | (k, v) :: rest, key => if k = key then some v else lookupRoot rest key

/-- In-place update of one root in the roots dictionary. -/
def setRoot : List (String × Node) → String → Node → List (String × Node)
  | [], _, _ => []
  | (k, v) :: rest, key, n =>
      if k = key then (k, n) :: rest else (k, v) :: setRoot rest key n

/-- The loop of lines 189–201: turn each entry into a bookmark node, skipping
entries whose resolved URL is falsy. `n` is the index of the next
`now_chrome_ts()` call; each kept entry consumes two calls
(`date_added` first, then `id`). Returns the bookmark list and the next
call index. -/
def addEntries (clk : Nat → Nat) : List Item → Nat → List Node × Nat
  | [], n => ([], n)
  | it :: rest, n =>
    if truthy (resolveUrl it) then
      let bm : Node := .mk (some "url") (resolveTitle it) (resolveUrl it)
        (some (now_chrome_ts clk n)) (some (pyStrInt (now_chrome_ts clk (n + 1)))) none
      let r := addEntries clk rest (n + 2)
      (bm :: r.1, r.2)
    else
      addEntries clk rest n

/-- The fresh folder node built on lines 181-187 and filled by the loop of
lines 189-201: its `date_added` and `id` are calls 0 and 1 of the clock; the
per-entry loop starts at call 2. -/
def newPocketFolder (clk : Nat → Nat) (entries : List Item) : Node :=
  .mk (some "folder") (some "Pocket-Export") none
    (some (now_chrome_ts clk 0)) (some (pyStrInt (now_chrome_ts clk 1)))
    (some (addEntries clk entries 2).1)

/-- Function `create_pocket_folder(bookmarks_json, entries)` (lines 173-203), with
the in-place mutation made explicit: a missing `"roots"` or `"other"` key is the
`KeyError` the Python raises (caught by `main`); otherwise the `"other"` root's
children list (initialized empty by `setdefault` when absent) is filtered of
existing `Pocket-Export` folders and the freshly built folder is appended. -/
def create_pocket_folder (clk : Nat → Nat) (doc : Document) (entries : List Item) :
    Except String Document :=
  match doc.roots with
  | none => .error "KeyError: roots"
  | some rs =>
    match lookupRoot rs "other" with
    | none => .error "KeyError: other"
    | some other =>
      let children := other.children.getD []
      let kept := children.filter fun child => !(isPocketExport child)
      let other2 : Node := .mk other.type other.name other.url other.date_added other.id
        (some (kept ++ [newPocketFolder clk entries]))
      .ok { roots := some (setRoot rs "other" other2) }

/-- The in-process file-system state touched by the run: the bookmark file and
its sibling backup file, each `none` when absent, holding a parsed document
when present (the adapter copies files whole, so document-level contents stand
for byte contents). -/
structure FS where
  bookmarksFile : Option Document
  backupFile : Option Document
deriving Repr

/-- Function `load_and_backup_bookmarks()` (lines 160-170): raises
`FileNotFoundError` when the bookmark file is absent, before any copy is made;
otherwise copies the bookmark file to the backup path (`shutil.copy2`) and
returns the parsed document. -/
def load_and_backup_bookmarks (fs : FS) : Except String (Document × FS) :=
  match fs.bookmarksFile with
  | none => .error "FileNotFoundError"
  | some d => .ok (d, { fs with backupFile := some d })

/-- Function `save_bookmarks(bookmarks_json)` (lines 206-211) at document
granularity: replaces the bookmark file's content with the merged document. -/
def save_bookmarks (fs : FS) (d : Document) : FS :=
  { fs with bookmarksFile := some d }

/-- Observable file-system events of a run, in order. -/
inductive Ev where
  | evBackup : Ev
  | evWrite : Ev
deriving Repr, DecidableEq

/-- Steps 2-4 of `main` (lines 332-352): load-and-backup, merge, save, where
each `except` clause prints and returns, aborting the rest of the pipeline.
Returns the final file-system state and the ordered trace of backup/write
events that occurred. -/
def mainRun (clk : Nat → Nat) (fs : FS) (entries : List Item) : FS × List Ev :=
  match load_and_backup_bookmarks fs with
  | .error _ => (fs, [])
  | .ok (d, fs1) =>
    match create_pocket_folder clk d entries with
    | .error _ => (fs1, [Ev.evBackup])
    | .ok d2 => (save_bookmarks fs1 d2, [Ev.evBackup, Ev.evWrite])

/-- Byte-level view of the bookmark file and its backup, for the write step. -/
structure FileState where
  target : Option String
  bak : Option String
deriving Repr, DecidableEq

/-- Byte-level model of the write in `save_bookmarks` (lines 210-211):
`open(BOOKMARKS_FILE, "w")` truncates the target file at once, then
`json.dump` streams the serialized document into it. `failAfter = none` is a
successful dump; `failAfter = some k` models `json.dump` (or the process)
failing after `k` characters have been written, leaving the prefix on disk.
Returns the new state and whether the write succeeded. -/
def save_bookmarks_write (fs : FileState) (serialized : String) (failAfter : Option Nat) :
    FileState × Bool :=
  match failAfter with
  | none => ({ fs with target := some serialized }, true)
  | some k => ({ fs with target := some (serialized.take k) }, false)

/-! Concrete fixtures used to instantiate the theorems below. -/

/-- A clock whose microsecond reading does not advance between calls, as
happens when consecutive `time.time()` calls fall in the same microsecond
(or within the timer resolution of the platform). -/
def clkStuck : Nat → Nat := fun _ => 1760000000000000

/-- A bookmarks-bar root with no children. -/
def barNode : Node := .mk (some "folder") (some "Bookmarks bar") none none none (some [])

/-- An empty `"other"` root. -/
def otherRootC : Node := .mk (some "folder") (some "Other bookmarks") none none none (some [])

/-- Roots dictionary with a bookmarks bar and an empty `"other"` root. -/
def rootsC : List (String × Node) := [("bookmark_bar", barNode), ("other", otherRootC)]

/-- A well-formed document with an empty `"other"` root. -/
def docC : Document := { roots := some rootsC }

/-- An item with a resolved title and resolved URL. -/
def itC : Item :=
  { item_id := some "1", resolved_title := some "Example",
    resolved_url := some "http://example.com" }

/-- An item carrying only an identifier: both URL fields absent. -/
def itNoUrl : Item := { item_id := some "2" }

/-- An item with every field populated and non-empty. -/
def itFull : Item :=
  { item_id := some "4", resolved_title := some "RT", given_title := some "GT",
    resolved_url := some "RU", given_url := some "GU" }

/-- An item whose resolved title and both URL fields are present but empty. -/
def itEmptyStr : Item :=
  { item_id := some "3", resolved_title := some "", given_title := some "GT",
    resolved_url := some "", given_url := some "" }

/-- A stale bookmark inside a previously exported folder. -/
def oldBm : Node := .mk (some "url") (some "Old") (some "http://old.example") (some "7") (some "8") none

/-- A stale `Pocket-Export` folder from a previous run, holding one bookmark. -/
def oldPE : Node := .mk (some "folder") (some "Pocket-Export") none (some "5") (some "6") (some [oldBm])

/-- An `"other"` root already containing a stale `Pocket-Export` folder. -/
def otherPE : Node := .mk (some "folder") (some "Other bookmarks") none none none (some [oldPE])

/-- Roots dictionary whose `"other"` root holds a stale `Pocket-Export` folder. -/
def rootsPE : List (String × Node) := [("other", otherPE)]

/-- Document whose `"other"` root holds a stale `Pocket-Export` folder. -/
def docPE : Document := { roots := some rootsPE }

/-- A document whose roots dictionary lacks the `"other"` key. -/
def docNoOther : Document := { roots := some [("bookmark_bar", barNode)] }

/-- File-system state with no bookmark file at the expected path. -/
def fsAbsent : FS := { bookmarksFile := none, backupFile := none }

/-- File-system state holding the well-formed document and no backup yet. -/
def fsC : FS := { bookmarksFile := some docC, backupFile := none }

/-- File-system state holding the document that lacks an `"other"` root. -/
def fsNoOther : FS := { bookmarksFile := some docNoOther, backupFile := none }

/-- Byte-level state where target and backup both hold the old serialization. -/
def fsOld : FileState := { target := some "OLD", bak := some "OLD" }

/-! Helper lemmas about the embedded definitions. -/

theorem addEntries_fst_map (clk : Nat → Nat) (entries : List Item) (n : Nat) :
    ((addEntries clk entries n).1).map (fun b => (b.name, b.url)) =
      (entries.filter fun it => truthy (resolveUrl it)).map
        (fun it => (resolveTitle it, resolveUrl it)) := by
  induction entries generalizing n with
  | nil => simp [addEntries]
  | cons it rest ih =>
    cases h : truthy (resolveUrl it)
    · simpa [addEntries, h, List.filter_cons] using ih n
    · simpa [addEntries, h, List.filter_cons, Node.name, Node.url] using ih (n + 2)

theorem addEntries_fst_length (clk : Nat → Nat) (entries : List Item) (n : Nat) :
    ((addEntries clk entries n).1).length =
      entries.countP fun it => truthy (resolveUrl it) := by
  induction entries generalizing n with
  | nil => simp [addEntries]
  | cons it rest ih =>
    cases h : truthy (resolveUrl it) <;>
      simp [addEntries, h, List.countP_cons, ih]

theorem addEntries_fst_mem (clk : Nat → Nat) (entries : List Item) (n : Nat) :
    ∀ b ∈ (addEntries clk entries n).1, b.type = some "url" ∧ b.children = none := by
  induction entries generalizing n with
  | nil => simp [addEntries]
  | cons it rest ih =>
    cases h : truthy (resolveUrl it) <;> simp [addEntries, h]
    · exact ih n
    · exact ⟨⟨rfl, rfl⟩, ih (n + 2)⟩

theorem isPocketExport_newPocketFolder (clk : Nat → Nat) (entries : List Item) :
    isPocketExport (newPocketFolder clk entries) = true := rfl

theorem truthy_some_of_ne (s : String) (h : s ≠ "") : truthy (some s) = true := by
  have he : s.isEmpty = false := by
    rw [Bool.eq_false_iff]
    intro hc
    exact h ((String.isEmpty_iff s).mp hc)
  simp [truthy, he]

theorem lookupRoot_setRoot_self (rs : List (String × Node)) (key : String) (n : Node)
    (h : (lookupRoot rs key).isSome = true) :
    lookupRoot (setRoot rs key n) key = some n := by
  induction rs with
  | nil => simp [lookupRoot] at h
  | cons p rest ih =>
    obtain ⟨k, v⟩ := p
    by_cases hk : k = key
    · simp [setRoot, lookupRoot, hk]
    · simp [setRoot, lookupRoot, hk] at h ⊢
      exact ih h

theorem lookupRoot_setRoot_ne (rs : List (String × Node)) (key q : String) (n : Node)
    (h : q ≠ key) :
    lookupRoot (setRoot rs key n) q = lookupRoot rs q := by
  induction rs with
  | nil => rfl
  | cons p rest ih =>
    obtain ⟨k, v⟩ := p
    by_cases hk : k = key
    · subst hk
      have hkq : (k = q) = False := eq_false fun hq => h hq.symm
      simp [setRoot, lookupRoot, hkq]
    · by_cases hq : k = q
      · subst hq
        simp [setRoot, lookupRoot, hk]
      · simp [setRoot, lookupRoot, hk, hq, ih]

theorem create_pocket_folder_ok (clk : Nat → Nat) (doc : Document) (entries : List Item)
    (rs : List (String × Node)) (other : Node)
    (h1 : doc.roots = some rs) (h2 : lookupRoot rs "other" = some other) :
    create_pocket_folder clk doc entries = .ok
      { roots := some (setRoot rs "other"
          (.mk other.type other.name other.url other.date_added other.id
            (some (((other.children.getD []).filter fun child => !(isPocketExport child)) ++
              [newPocketFolder clk entries])))) } := by
  simp [create_pocket_folder, h1, h2]

theorem create_pocket_folder_ok_inv (clk : Nat → Nat) (doc : Document)
    (entries : List Item) (d : Document)
    (h : create_pocket_folder clk doc entries = .ok d) :
    ∃ rs other, doc.roots = some rs ∧ lookupRoot rs "other" = some other ∧
      d = { roots := some (setRoot rs "other"
          (.mk other.type other.name other.url other.date_added other.id
            (some (((other.children.getD []).filter fun child => !(isPocketExport child)) ++
              [newPocketFolder clk entries])))) } := by
  cases hr : doc.roots with
  | none => simp [create_pocket_folder, hr] at h
  | some rs =>
    cases ho : lookupRoot rs "other" with
    | none => simp [create_pocket_folder, hr, ho] at h
    | some other =>
      refine ⟨rs, other, rfl, ho, ?_⟩
      rw [create_pocket_folder_ok clk doc entries rs other hr ho] at h
      exact (Except.ok.inj h).symm

/-! Claim theorems. -/

/-- C1: for every bookmark document containing an `"other"` root and every item
sequence, after the merge the `"other"` root's children contain exactly one
folder named `Pocket-Export`, and the number of bookmark children of that
folder equals the number of items whose resolved URL (`resolved_url`, else
`given_url`) is non-empty; in particular an empty item sequence yields a
present but empty `Pocket-Export` folder (the merge returns ok, not an
error). -/
theorem C1_exactly_one_pocket_folder (clk : Nat → Nat) (doc : Document)
    (entries : List Item) (rs : List (String × Node)) (other : Node)
    (h1 : doc.roots = some rs) (h2 : lookupRoot rs "other" = some other) :
    ∃ d rs' other' cs bms,
      create_pocket_folder clk doc entries = .ok d ∧
      d.roots = some rs' ∧
      lookupRoot rs' "other" = some other' ∧
      other'.children = some cs ∧
      cs.countP (fun c => isPocketExport c) = 1 ∧
      cs.getLast? = some (newPocketFolder clk entries) ∧
      (newPocketFolder clk entries).children = some bms ∧
      (∀ b ∈ bms, b.type = some "url") ∧
      bms.length = entries.countP (fun it => truthy (resolveUrl it)) := by
  refine ⟨_, _, _, _, _, create_pocket_folder_ok clk doc entries rs other h1 h2, rfl,
    lookupRoot_setRoot_self rs "other" _ (by simp [h2]), rfl, ?_,
    List.getLast?_concat _, rfl,
    fun b hb => (addEntries_fst_mem clk entries 2 b hb).1,
    addEntries_fst_length clk entries 2⟩
  rw [List.countP_append]
  have h0 : ((other.children.getD []).filter fun child => !(isPocketExport child)).countP
      (fun c => isPocketExport c) = 0 := by
    rw [List.countP_eq_zero]
    intro a ha
    have hpa : (!(isPocketExport a)) = true := (List.mem_filter.mp ha).2
    simp_all
  simp [h0, isPocketExport_newPocketFolder]

/-- C2: for every document whose `"other"` root already contains a
`Pocket-Export` folder (with any number of old bookmarks) and every item list
whose members all have a resolvable URL, the merged folder contains exactly as
many bookmarks as there are items: the prior folder is discarded from the
children (so old bookmarks are never accumulated). -/
theorem C2_full_replacement (clk : Nat → Nat) (doc : Document) (entries : List Item)
    (rs : List (String × Node)) (other : Node) (cs : List Node) (oldFolder : Node)
    (h1 : doc.roots = some rs) (h2 : lookupRoot rs "other" = some other)
    (h3 : other.children = some cs) (h4 : oldFolder ∈ cs)
    (h5 : isPocketExport oldFolder = true)
    (h6 : ∀ it ∈ entries, truthy (resolveUrl it) = true) :
    ∃ d rs' other' bms,
      create_pocket_folder clk doc entries = .ok d ∧
      d.roots = some rs' ∧ lookupRoot rs' "other" = some other' ∧
      other'.children =
        some ((cs.filter fun c => !(isPocketExport c)) ++ [newPocketFolder clk entries]) ∧
      oldFolder ∉ (cs.filter fun c => !(isPocketExport c)) ∧
      (newPocketFolder clk entries).children = some bms ∧
      bms.length = entries.length := by
  have hcs : other.children.getD [] = cs := by rw [h3]; rfl
  refine ⟨_, _, _, _, create_pocket_folder_ok clk doc entries rs other h1 h2, rfl,
    lookupRoot_setRoot_self rs "other" _ (by simp [h2]), by rw [← hcs]; rfl,
    ?_, rfl, ?_⟩
  · intro hmem
    have hp : (!(isPocketExport oldFolder)) = true := (List.mem_filter.mp hmem).2
    simp [h5] at hp
  · rw [addEntries_fst_length]
    exact List.countP_eq_length.mpr h6

/-- C3: for every item, the bookmark produced by the merge uses the resolved
title if non-empty, else the given title if non-empty, else the item
identifier as its name, and the resolved URL if non-empty, else the given URL
as its URL; an item with neither URL field populated produces no bookmark, and
the merge returns ok rather than erroring. -/
theorem C3_title_and_url_precedence (clk : Nat → Nat) (doc : Document)
    (rs : List (String × Node)) (other : Node) (it : Item) (entries : List Item)
    (t u : String) :
    (doc.roots = some rs → lookupRoot rs "other" = some other →
       (create_pocket_folder clk doc entries).isOk = true) ∧
    (it.resolved_title = some t → t ≠ "" → resolveTitle it = some t) ∧
    (truthy it.resolved_title = false → it.given_title = some t → t ≠ "" →
       resolveTitle it = some t) ∧
    (truthy it.resolved_title = false → truthy it.given_title = false →
       resolveTitle it = it.item_id) ∧
    (it.resolved_url = some u → u ≠ "" → resolveUrl it = some u) ∧
    (truthy it.resolved_url = false → resolveUrl it = it.given_url) ∧
    (truthy (resolveUrl it) = false →
       ∀ n, addEntries clk (it :: entries) n = addEntries clk entries n) ∧
    (truthy (resolveUrl it) = true →
       ∀ n, ((addEntries clk (it :: entries) n).1.head?.map fun b => (b.name, b.url)) =
         some (resolveTitle it, resolveUrl it)) := by
  refine ⟨?_, ?_, ?_, ?_, ?_, ?_, ?_, ?_⟩
  · intro h1 h2
    rw [create_pocket_folder_ok clk doc entries rs other h1 h2]
    rfl
  · intro h1 h2
    simp [resolveTitle, pyOr, h1, truthy_some_of_ne t h2]
  · intro h1 h2 h3
    simp [resolveTitle, pyOr, h1, h2, truthy_some_of_ne t h3]
  · intro h1 h2
    simp [resolveTitle, pyOr, h1, h2]
  · intro h1 h2
    simp [resolveUrl, pyOr, h1, truthy_some_of_ne u h2]
  · intro h1
    simp [resolveUrl, pyOr, h1]
  · intro h n
    simp [addEntries, h]
  · intro h n
    simp [addEntries, h, Node.name, Node.url]

/-- C4: the merge leaves everything outside the `"other"` root's
`Pocket-Export` folder unchanged: every root under a key other than `"other"`
is looked up unmodified, the `"other"` root keeps all its own fields, and the
children of `"other"` that are not folders named `Pocket-Export` (including
non-folder nodes named `Pocket-Export`) are preserved with their relative
order intact. -/
theorem C4_frame_preservation (clk : Nat → Nat) (doc : Document) (entries : List Item)
    (rs : List (String × Node)) (other : Node) (d : Document)
    (h1 : doc.roots = some rs) (h2 : lookupRoot rs "other" = some other)
    (h3 : create_pocket_folder clk doc entries = .ok d) :
    ∃ rs' other',
      d.roots = some rs' ∧
      (∀ q, q ≠ "other" → lookupRoot rs' q = lookupRoot rs q) ∧
      lookupRoot rs' "other" = some other' ∧
      other'.type = other.type ∧ other'.name = other.name ∧ other'.url = other.url ∧
      other'.date_added = other.date_added ∧ other'.id = other.id ∧
      ∃ cs', other'.children = some cs' ∧
        (cs'.filter fun c => !(isPocketExport c)) =
          ((other.children.getD []).filter fun c => !(isPocketExport c)) := by
  rw [create_pocket_folder_ok clk doc entries rs other h1 h2] at h3
  have hd := Except.ok.inj h3
  subst hd
  refine ⟨_, _, rfl, fun q hq => lookupRoot_setRoot_ne rs "other" q _ hq,
    lookupRoot_setRoot_self rs "other" _ (by simp [h2]),
    rfl, rfl, rfl, rfl, rfl, _, rfl, ?_⟩
  rw [List.filter_append]
  have hk : (((other.children.getD []).filter fun c => !(isPocketExport c)).filter
      fun c => !(isPocketExport c)) =
      ((other.children.getD []).filter fun c => !(isPocketExport c)) :=
    List.filter_eq_self.mpr fun a ha => (List.mem_filter.mp ha).2
  simp [hk, isPocketExport_newPocketFolder]

/-- C5: applying the merge twice with the same items (the second application
on the output of the first) yields a document whose `Pocket-Export` folder
(the last child of the `"other"` root) carries the same sequence of bookmark
names and URLs as after a single application, even though the two runs may
observe different clocks. -/
theorem C5_idempotent_content (clk1 clk2 : Nat → Nat) (doc : Document)
    (entries : List Item) (d1 d2 : Document)
    (h1 : create_pocket_folder clk1 doc entries = .ok d1)
    (h2 : create_pocket_folder clk2 d1 entries = .ok d2) :
    ∃ rs1 o1 cs1 f1 rs2 o2 cs2 f2,
      d1.roots = some rs1 ∧ lookupRoot rs1 "other" = some o1 ∧
      o1.children = some cs1 ∧ cs1.getLast? = some f1 ∧ isPocketExport f1 = true ∧
      d2.roots = some rs2 ∧ lookupRoot rs2 "other" = some o2 ∧
      o2.children = some cs2 ∧ cs2.getLast? = some f2 ∧ isPocketExport f2 = true ∧
      (f1.children.getD []).map (fun b => (b.name, b.url)) =
        (f2.children.getD []).map (fun b => (b.name, b.url)) := by
  obtain ⟨rs, other, hr, ho, hd1⟩ := create_pocket_folder_ok_inv clk1 doc entries d1 h1
  subst hd1
  obtain ⟨rs2', other2', hr2, ho2, hd2⟩ := create_pocket_folder_ok_inv clk2 _ entries d2 h2
  subst hd2
  refine ⟨_, _, _, _, _, _, _, _, rfl,
    lookupRoot_setRoot_self rs "other" _ (by simp [ho]), rfl,
    List.getLast?_concat _, isPocketExport_newPocketFolder clk1 entries, rfl,
    lookupRoot_setRoot_self rs2' "other" _ (by simp [ho2]), rfl,
    List.getLast?_concat _, isPocketExport_newPocketFolder clk2 entries, ?_⟩
  show ((newPocketFolder clk1 entries).children.getD []).map (fun b => (b.name, b.url)) =
    ((newPocketFolder clk2 entries).children.getD []).map (fun b => (b.name, b.url))
  simp only [newPocketFolder, Node.children, Option.getD_some]
  rw [addEntries_fst_map, addEntries_fst_map]

/-- C6 (code bug): the generated identifiers are raw microsecond clock
readings, so when two `now_chrome_ts()` calls fall in the same microsecond —
here a clock that does not advance during the run — the new folder and the
new bookmark receive the same `id`, contradicting the uniqueness the code's
own comment (`# ID must be unique`) demands. -/
theorem C6_id_collision :
    ∃ d rs other folder bm,
      create_pocket_folder clkStuck docC [itC] = .ok d ∧
      d.roots = some rs ∧
      lookupRoot rs "other" = some other ∧
      other.children = some [folder] ∧
      folder.children = some [bm] ∧
      folder.id = bm.id ∧ folder.id ≠ none :=
  ⟨_, _, _, _, _, rfl, rfl, rfl, rfl, rfl, rfl, by simp [newPocketFolder, Node.id]⟩

/-- C7: for every document whose roots dictionary is absent or lacks the
`"other"` key, the merge fails with an error, and the orchestrator run leaves
the bookmark file unchanged and performs no write event. -/
theorem C7_missing_other_aborts (clk : Nat → Nat) (fs : FS) (entries : List Item)
    (d : Document) (h1 : fs.bookmarksFile = some d)
    (h2 : d.roots = none ∨ ∃ rs, d.roots = some rs ∧ lookupRoot rs "other" = none) :
    (∃ e, create_pocket_folder clk d entries = .error e) ∧
    (mainRun clk fs entries).1.bookmarksFile = fs.bookmarksFile ∧
    Ev.evWrite ∉ (mainRun clk fs entries).2 := by
  have herr : ∃ e, create_pocket_folder clk d entries = .error e := by
    rcases h2 with h | ⟨rs, hr, ho⟩
    · exact ⟨"KeyError: roots", by simp [create_pocket_folder, h]⟩
    · exact ⟨"KeyError: other", by simp [create_pocket_folder, hr, ho]⟩
  obtain ⟨e, he⟩ := herr
  refine ⟨⟨e, he⟩, ?_, ?_⟩
  · simp [mainRun, load_and_backup_bookmarks, h1, he]
  · simp [mainRun, load_and_backup_bookmarks, h1, he]

/-- C8: on every run, when the bookmark file is absent the run aborts with
`FileNotFoundError` and the file system is untouched (no backup created);
when it is present, the final backup file holds the pre-run content of the
bookmark file; and whenever a write event occurs in the trace, it is preceded
by the backup event. -/
theorem C8_backup_before_write (clk : Nat → Nat) (fs : FS) (entries : List Item) :
    (fs.bookmarksFile = none →
       load_and_backup_bookmarks fs = .error "FileNotFoundError" ∧
       mainRun clk fs entries = (fs, [])) ∧
    (∀ d, fs.bookmarksFile = some d →
       (mainRun clk fs entries).1.backupFile = some d) ∧
    (Ev.evWrite ∈ (mainRun clk fs entries).2 →
       (mainRun clk fs entries).2 = [Ev.evBackup, Ev.evWrite]) := by
  refine ⟨?_, ?_, ?_⟩
  · intro h
    exact ⟨by simp [load_and_backup_bookmarks, h],
      by simp [mainRun, load_and_backup_bookmarks, h]⟩
  · intro d h
    cases hc : create_pocket_folder clk d entries <;>
      simp [mainRun, load_and_backup_bookmarks, save_bookmarks, h, hc]
  · cases hb : fs.bookmarksFile with
    | none => simp [mainRun, load_and_backup_bookmarks, hb]
    | some d =>
      cases hc : create_pocket_folder clk d entries <;>
        simp [mainRun, load_and_backup_bookmarks, hb, hc]

/-- C9 counterexample: the write step is not atomic. It opens the target with
mode `"w"` (truncating it) and streams `json.dump` into it, so a failure after
one character leaves a partial serialization on disk: the original content is
not left untouched and a partial document is persisted. -/
theorem C9_not_atomic_counterexample :
    (save_bookmarks_write fsOld "NEW-CONTENT" (some 1)).2 = false ∧
    (save_bookmarks_write fsOld "NEW-CONTENT" (some 1)).1.target = some "N" ∧
    (save_bookmarks_write fsOld "NEW-CONTENT" (some 1)).1.target ≠ fsOld.target := by
  refine ⟨rfl, rfl, by decide⟩

/-- C9 amended: the write step truncates the target file and rewrites it in
place (not atomically). On success the target holds exactly the serialized
document; on a failure after `k` characters the target holds the length-`k`
prefix (a partial document may persist); in all cases the backup file is left
untouched by the write step. -/
theorem C9_write_in_place (fs : FileState) (s : String) (failAfter : Option Nat) :
    (save_bookmarks_write fs s failAfter).1.bak = fs.bak ∧
    (failAfter = none →
       save_bookmarks_write fs s failAfter = ({ fs with target := some s }, true)) ∧
    (∀ k, failAfter = some k →
       save_bookmarks_write fs s failAfter =
         ({ fs with target := some (s.take k) }, false)) := by
  refine ⟨?_, ?_, ?_⟩
  · cases failAfter <;> rfl
  · intro h
    subst h
    rfl
  · intro k h
    subst h
    rfl

/-- C10: a field present but equal to the empty string is treated by the merge
exactly as an absent field: an item whose `resolved_url` and `given_url` are
both empty strings is skipped by the bookmark loop just like one with no URL
fields at all, and an empty-string `resolved_title` makes the name fall back
to the given title and then to the item identifier. -/
theorem C10_empty_string_as_absent (clk : Nat → Nat) (it : Item)
    (entries : List Item) (n : Nat) :
    (it.resolved_url = some "" → it.given_url = some "" →
       truthy (resolveUrl it) = false ∧
       addEntries clk (it :: entries) n = addEntries clk entries n) ∧
    (it.resolved_url = none → it.given_url = none →
       truthy (resolveUrl it) = false ∧
       addEntries clk (it :: entries) n = addEntries clk entries n) ∧
    (it.resolved_title = some "" →
       resolveTitle it = pyOr it.given_title it.item_id) := by
  refine ⟨?_, ?_, ?_⟩
  · intro h1 h2
    have he : ("" : String).isEmpty = true := rfl
    have hu : truthy (resolveUrl it) = false := by
      simp [resolveUrl, pyOr, truthy, h1, h2, he]
    exact ⟨hu, by simp [addEntries, hu]⟩
  · intro h1 h2
    have hu : truthy (resolveUrl it) = false := by
      simp [resolveUrl, pyOr, truthy, h1, h2]
    exact ⟨hu, by simp [addEntries, hu]⟩
  · intro h1
    have he : ("" : String).isEmpty = true := rfl
    simp [resolveTitle, pyOr, truthy, h1, he]

/-! Witnesses: each applies its claim theorem at concrete inputs and
discharges the hypotheses there. -/

/-- Witness for C1 at the empty item list: the merge of no items into the
two-root document succeeds and yields exactly one (empty) folder. -/
theorem C1_exactly_one_pocket_folder_witness :
    ∃ d rs' other' cs bms,
      create_pocket_folder clkStuck docC [] = .ok d ∧
      d.roots = some rs' ∧
      lookupRoot rs' "other" = some other' ∧
      other'.children = some cs ∧
      cs.countP (fun c => isPocketExport c) = 1 ∧
      cs.getLast? = some (newPocketFolder clkStuck []) ∧
      (newPocketFolder clkStuck []).children = some bms ∧
      (∀ b ∈ bms, b.type = some "url") ∧
      bms.length = List.countP (fun it => truthy (resolveUrl it)) [] :=
  C1_exactly_one_pocket_folder clkStuck docC [] rootsC otherRootC rfl rfl

/-- Witness for C2: a document with a stale one-bookmark `Pocket-Export`
folder merged with one resolvable item ends with exactly one bookmark. -/
theorem C2_full_replacement_witness :
    ∃ d rs' other' bms,
      create_pocket_folder clkStuck docPE [itC] = .ok d ∧
      d.roots = some rs' ∧ lookupRoot rs' "other" = some other' ∧
      other'.children =
        some ((List.filter (fun c => !(isPocketExport c)) [oldPE]) ++
          [newPocketFolder clkStuck [itC]]) ∧
      oldPE ∉ (List.filter (fun c => !(isPocketExport c)) [oldPE]) ∧
      (newPocketFolder clkStuck [itC]).children = some bms ∧
      bms.length = List.length [itC] :=
  C2_full_replacement clkStuck docPE [itC] rootsPE otherPE [oldPE] oldPE rfl rfl rfl
    (List.mem_singleton.mpr rfl) rfl
    (by intro x hx; rw [List.mem_singleton.mp hx]; rfl)

/-- Witness for C3 at a fully populated item, a no-URL item and the
well-formed document. -/
theorem C3_title_and_url_precedence_witness :
    (create_pocket_folder clkStuck docC [itFull]).isOk = true ∧
    resolveTitle itFull = some "RT" ∧
    resolveUrl itFull = some "RU" ∧
    addEntries clkStuck (itNoUrl :: []) 0 = addEntries clkStuck [] 0 :=
  ⟨(C3_title_and_url_precedence clkStuck docC rootsC otherRootC itFull [itFull] "RT" "RU").1
      rfl rfl,
   (C3_title_and_url_precedence clkStuck docC rootsC otherRootC itFull [] "RT" "RU").2.1
      rfl (by simp),
   (C3_title_and_url_precedence clkStuck docC rootsC otherRootC itFull [] "RU" "RU").2.2.2.2.1
      rfl (by simp),
   (C3_title_and_url_precedence clkStuck docC rootsC otherRootC itNoUrl [] "x" "y").2.2.2.2.2.2.1
      rfl 0⟩

/-- Witness for C4: the merge over the two-root document preserves the
bookmarks-bar root and the non-folder children of `"other"`. -/
theorem C4_frame_preservation_witness :
    ∃ d, create_pocket_folder clkStuck docC [itC] = .ok d ∧
      ∃ rs' other',
        d.roots = some rs' ∧
        (∀ q, q ≠ "other" → lookupRoot rs' q = lookupRoot rootsC q) ∧
        lookupRoot rs' "other" = some other' ∧
        other'.type = otherRootC.type ∧ other'.name = otherRootC.name ∧
        other'.url = otherRootC.url ∧
        other'.date_added = otherRootC.date_added ∧ other'.id = otherRootC.id ∧
        ∃ cs', other'.children = some cs' ∧
          (cs'.filter fun c => !(isPocketExport c)) =
            ((otherRootC.children.getD []).filter fun c => !(isPocketExport c)) :=
  ⟨_, rfl, C4_frame_preservation clkStuck docC [itC] rootsC otherRootC _ rfl rfl rfl⟩

/-- Witness for C5: merging the same item twice in a row (under the stuck
clock) yields the same bookmark names and URLs as one merge. -/
theorem C5_idempotent_content_witness :
    ∃ d1 d2, create_pocket_folder clkStuck docC [itC] = .ok d1 ∧
      create_pocket_folder clkStuck d1 [itC] = .ok d2 ∧
      ∃ rs1 o1 cs1 f1 rs2 o2 cs2 f2,
        d1.roots = some rs1 ∧ lookupRoot rs1 "other" = some o1 ∧
        o1.children = some cs1 ∧ cs1.getLast? = some f1 ∧ isPocketExport f1 = true ∧
        d2.roots = some rs2 ∧ lookupRoot rs2 "other" = some o2 ∧
        o2.children = some cs2 ∧ cs2.getLast? = some f2 ∧ isPocketExport f2 = true ∧
        (f1.children.getD []).map (fun b => (b.name, b.url)) =
          (f2.children.getD []).map (fun b => (b.name, b.url)) :=
  ⟨_, _, rfl, rfl, C5_idempotent_content clkStuck clkStuck docC [itC] _ _ rfl rfl⟩

/-- Witness for C7 at the document lacking an `"other"` root. -/
theorem C7_missing_other_aborts_witness :
    (∃ e, create_pocket_folder clkStuck docNoOther [itC] = .error e) ∧
    (mainRun clkStuck fsNoOther [itC]).1.bookmarksFile = fsNoOther.bookmarksFile ∧
    Ev.evWrite ∉ (mainRun clkStuck fsNoOther [itC]).2 :=
  C7_missing_other_aborts clkStuck fsNoOther [itC] docNoOther rfl
    (Or.inr ⟨[("bookmark_bar", barNode)], rfl, rfl⟩)

/-- Witness for C8: the absent-file state aborts untouched; the present-file
state ends with the original document in the backup file. -/
theorem C8_backup_before_write_witness :
    (load_and_backup_bookmarks fsAbsent = .error "FileNotFoundError" ∧
     mainRun clkStuck fsAbsent [itC] = (fsAbsent, [])) ∧
    (mainRun clkStuck fsC [itC]).1.backupFile = some docC :=
  ⟨(C8_backup_before_write clkStuck fsAbsent [itC]).1 rfl,
   (C8_backup_before_write clkStuck fsC [itC]).2.1 docC rfl⟩

/-- Witness for the amended C9 at a successful write and a failed write. -/
theorem C9_write_in_place_witness :
    (save_bookmarks_write fsOld "NEW" none).1.bak = fsOld.bak ∧
    save_bookmarks_write fsOld "NEW" none = ({ fsOld with target := some "NEW" }, true) ∧
    save_bookmarks_write fsOld "NEW" (some 1) =
      ({ fsOld with target := some (String.take "NEW" 1) }, false) :=
  ⟨(C9_write_in_place fsOld "NEW" none).1,
   (C9_write_in_place fsOld "NEW" none).2.1 rfl,
   (C9_write_in_place fsOld "NEW" (some 1)).2.2 1 rfl⟩

/-- Witness for C10 at an item whose title and URL fields are present but
empty strings. -/
theorem C10_empty_string_as_absent_witness :
    (truthy (resolveUrl itEmptyStr) = false ∧
     addEntries clkStuck [itEmptyStr] 0 = addEntries clkStuck [] 0) ∧
    resolveTitle itEmptyStr = pyOr itEmptyStr.given_title itEmptyStr.item_id :=
  ⟨(C10_empty_string_as_absent clkStuck itEmptyStr [] 0).1 rfl rfl,
   (C10_empty_string_as_absent clkStuck itEmptyStr [] 0).2.2 rfl⟩

end PocketExport
